import Mathlib

/-!
Shallow embedding of `slither_api_example.py` (the invariant verifier
`test_deposit_transaction_integrity`) and proofs about it.

The Analysis Model (slither's view of the compiled contracts) is embedded as
plain data: contracts hold functions, functions hold CFG nodes and their
outgoing high-level calls, nodes carry a kind tag, their child nodes (`sons`)
and their ordered IR operations (`irs`).  Temporaries are identified by a
unique numeric id, which models reference identity of the Python objects:
two independently produced temporaries never share an id.
-/

namespace SlitherAPI

/-- CFG node kinds used by the verifier (`NodeType` in slither); every other
kind is collapsed into `OTHER`, which the verifier never inspects further. -/
inductive NodeType where
  | IF
  | EXPRESSION
  | ENDIF
  | OTHER
deriving DecidableEq, Repr

/-- Binary IR operators (`BinaryType` in slither); the verifier only compares
against `EQUAL`, all other operators behave alike, so two suffice. -/
inductive BinaryType where
  | EQUAL
  | NOT_EQUAL
deriving DecidableEq, Repr

/-- Variables as the verifier distinguishes them: user-named locals
(`LocalVariable`), literal constants (`Constant`, value compared by value) and
anonymous temporaries (compared by reference identity, modelled as a unique
id). -/
inductive Variable where
  | localVar (name : String)
  | constant (value : Int)
  | temporary (id : Nat)
deriving DecidableEq, Repr

/-- The four IR operation kinds the verifier inspects, as a closed sum:
`Condition(value)`, `TypeConversion(variable, type.name, lvalue)`,
`Binary(type, variable_left, variable_right, lvalue)` and
`SolidityCall(function.full_name, arguments, lvalue)`. -/
inductive IROp where
  | condition (value : Variable)
  | typeConversion (convertedVar : Variable) (typeName : String) (lvalue : Variable)
  | binary (type : BinaryType) (variable_left : Variable)
      (variable_right : Variable) (lvalue : Variable)
  | solidityCall (full_name : String) (arguments : List Variable)
      (lvalue : Option Variable)
deriving DecidableEq, Repr

/-- A CFG node: its kind, its child nodes (`node.sons`) and its ordered IR
operations (`node.irs`; slither always materialises this as a list, so the
source's defensive `is None` test is vacuous here). -/
inductive Node where
  | mk (type : NodeType) (sons : List Node) (irs : List IROp)

/-- Kind tag of a node (`node.type`). -/
def Node.type : Node → NodeType
  | .mk t _ _ => t

/-- Child nodes of a node (`node.sons`). -/
def Node.sons : Node → List Node
  | .mk _ s _ => s

/-- IR operations of a node (`node.irs`). -/
def Node.irs : Node → List IROp
  | .mk _ _ i => i

/-- A function of the model: its name, its outgoing high-level calls as
(callee contract name, callee function name) pairs, duplicates preserved
(`function.high_level_calls`), and its CFG nodes (`function.nodes`). -/
structure Func where
  name : String
  high_level_calls : List (String × String)
  nodes : List Node

/-- A contract of the model: its name and its functions. -/
structure Contract where
  name : String
  functions : List Func

/-- The read-only Analysis Model handed over by the analyzer. -/
structure Slither where
  contracts : List Contract

/-- All contracts of the model carrying the given name
(`slither.get_contract_from_name`). -/
def get_contract_from_name (slither : Slither) (name : String) : List Contract :=
  slither.contracts.filter (fun c => c.name == name)

/-- The invariant rule: the constants the source verifier checks against,
lifted into one configuration record so the checks can be stated for every
rule.  `test_deposit_transaction_integrity` instantiates it at
`depositRule` below. -/
structure Rule where
  targetContract : String
  targetFunction : String
  expectedCalls : List String
  guardVariableName : String
  conversionLiteral : Int
  conversionTypeName : String
  binaryOperator : BinaryType
  binaryLocalName : String
  callSignature : String

/-- First stage of the per-node check: the node is an IF node, its first IR
operation exists and is a `Condition`, the condition's value is a named local
and its name equals the rule's guard variable (source: the four `continue`
guards from `node.type == NodeType.IF` down to
`condition_value.name != "_isCreation"`). -/
def isGuardCandidate (rule : Rule) (node : Node) : Bool :=
  node.type == NodeType.IF &&
  (match node.irs with
   | condition_ir :: _ =>
     (match condition_ir with
      | IROp.condition (Variable.localVar lname) => lname == rule.guardVariableName
      | _ => false)
   | [] => false)

/-- The exact three-operation sequence check on the EXPRESSION child's IR list
(source: from `len(require_expression_node.irs) != 3` down to
`solidity_call_ir.arguments[0] != binary_ir.lvalue`).  The list must have
exactly three operations; a `TypeConversion` of a literal with the rule's
value to the rule's type name, a `Binary` with the rule's operator whose right
operand is identically the conversion's result temporary and whose left
operand is a local named as the rule demands, and a call to the rule's
signature whose first argument is identically the binary's result. -/
def matchOpSequence (rule : Rule) (irs : List IROp) : Bool :=
  match irs with
  | [ir0, ir1, ir2] =>
    match ir0 with
    | IROp.typeConversion (Variable.constant cval) ttype tlv =>
      if cval != rule.conversionLiteral || ttype != rule.conversionTypeName then false
      else
        match ir1 with
        | IROp.binary btype bleft bright blv =>
          if btype != rule.binaryOperator then false
          else if bright != tlv then false
          else
            match bleft with
            | Variable.localVar llname =>
              if llname != rule.binaryLocalName then false
              else
                match ir2 with
                | IROp.solidityCall fname args _ =>
                  if fname != rule.callSignature || args.length < 1 then false
                  else
                    match args with
                    | a0 :: _ => a0 == blv
                    | [] => false
                | _ => false
            | _ => false
        | _ => false
    | _ => false
  | _ => false

/-- The full per-node check of the source loop body: guard candidate, exactly
two children, last child an ENDIF, first child an EXPRESSION carrying the
expected operation sequence. -/
def matchNode (rule : Rule) (node : Node) : Bool :=
  isGuardCandidate rule node &&
  (match node.sons with
   | [require_expression_node, end_node] =>
     end_node.type == NodeType.ENDIF &&
     require_expression_node.type == NodeType.EXPRESSION &&
     matchOpSequence rule require_expression_node.irs
   | _ => false)

/-- The pattern-matching pass over the function's nodes: the source loop sets
`found_creation_check` exactly when some node passes every per-node guard. -/
def patternMatches (rule : Rule) (nodes : List Node) : Bool :=
  nodes.any (fun node => matchNode rule node)

/-- The per-node check again, but instrumented for access safety: every list
subscript of the source (`node.irs[0]`, `node.sons[-1]`, `node.sons[0]`,
`require_expression_node.irs[0..2]`, `solidity_call_ir.arguments[0]`) is
performed with `List.get?`, and an out-of-range access aborts with `none`
instead of being silently absorbed.  The guards are exactly the source's
`continue` conditions, in source order. -/
def matchNodeSafe (rule : Rule) (node : Node) : Option Bool :=
  if node.type != NodeType.IF then some false else
  if node.irs.length == 0 then some false else
  match node.irs.get? 0 with
  | none => none
  | some condition_ir =>
    match condition_ir with
    | IROp.condition condition_value =>
      match condition_value with
      | Variable.localVar lname =>
        if lname != rule.guardVariableName then some false else
        if node.sons.length != 2 then some false else
        match node.sons.get? (node.sons.length - 1) with
        | none => none
        | some last_son =>
          if last_son.type != NodeType.ENDIF then some false else
          match node.sons.get? 0 with
          | none => none
          | some require_expression_node =>
            if require_expression_node.type != NodeType.EXPRESSION then some false else
            if require_expression_node.irs.length != 3 then some false else
            match require_expression_node.irs.get? 0 with
            | none => none
            | some ir0 =>
              match ir0 with
              | IROp.typeConversion tvar ttype tlv =>
                match tvar with
                | Variable.constant cval =>
                  if cval != rule.conversionLiteral || ttype != rule.conversionTypeName
                  then some false else
                  match require_expression_node.irs.get? 1 with
                  | none => none
                  | some ir1 =>
                    match ir1 with
                    | IROp.binary btype bleft bright blv =>
                      if btype != rule.binaryOperator then some false else
                      if bright != tlv then some false else
                      match bleft with
                      | Variable.localVar llname =>
                        if llname != rule.binaryLocalName then some false else
                        match require_expression_node.irs.get? 2 with
                        | none => none
                        | some ir2 =>
                          match ir2 with
                          | IROp.solidityCall fname args _ =>
                            if fname != rule.callSignature || args.length < 1
                            then some false else
                            match args.get? 0 with
                            | none => none
                            | some a0 => some (a0 == blv)
                          | _ => some false
                      | _ => some false
                    | _ => some false
                | _ => some false
              | _ => some false
      | _ => some false
    | _ => some false

/-- The pattern-matching pass with instrumented accesses: the source loop
visits every node (it never breaks early), so any access failure at any node
aborts the whole pass. -/
def patternMatchesSafe (rule : Rule) (nodes : List Node) : Option Bool :=
  nodes.foldl
    (fun acc node =>
      match acc, matchNodeSafe rule node with
      | some found, some matched => some (found || matched)
      | _, _ => none)
    (some false)

/-- Whether `pat` occurs as a contiguous substring of `s`, by scanning every
tail of the character list.  Used to state that an error message does not
mention a given call entry. -/
def containsSub (pat s : String) : Bool :=
  s.data.tails.any (fun t => pat.data.isPrefixOf t)

/-- Lexicographic code-point order on strings, as Python's `sorted` compares
them.  Stated on the underlying character lists because that is the order the
model computes with. -/
def strLe (a b : String) : Prop := a.data ≤ b.data

instance : DecidableRel strLe :=
  fun a b => inferInstanceAs (Decidable (a.data ≤ b.data))

/-- The call-set comparison of the source:
`sorted(high_level_calls) == sorted(expected)`. -/
def callSetCheck (actual expected : List String) : Bool :=
  List.insertionSort strLe actual == List.insertionSort strLe expected

/-- The verifier, with the source's hard-coded constants abstracted into a
`Rule`: locate the contract (first match wins), locate the function by name,
compare the sorted outgoing call multiset, then run the pattern-matching
pass; the first failing stage aborts with its own error message (the source
raises `LookupError` or `ValueError` there). -/
def verify (slither : Slither) (rule : Rule) : Except String Unit :=
  match get_contract_from_name slither rule.targetContract with
  | [] => Except.error ("Could not find " ++ rule.targetContract ++ " contract")
  | portal :: _ =>
    match portal.functions.find? (fun f => f.name == rule.targetFunction) with
    | none => Except.error ("Could not find " ++ rule.targetContract ++ "." ++
        rule.targetFunction ++ " function")
    | some deposit_function =>
      let high_level_calls :=
        deposit_function.high_level_calls.map (fun cf => cf.1 ++ "." ++ cf.2)
      if !callSetCheck high_level_calls rule.expectedCalls then
        Except.error (rule.targetContract ++ "." ++ rule.targetFunction ++
          " has had a new high level call added.")
      else if !patternMatches rule deposit_function.nodes then
        Except.error ("Could not find the " ++ rule.guardVariableName ++
          " if-statement + require check in " ++ rule.targetContract ++ "." ++
          rule.targetFunction)
      else Except.ok ()

/-- The concrete rule the source hard-codes throughout
`test_deposit_transaction_integrity`. -/
def depositRule : Rule where
  targetContract := "OptimismPortal"
  targetFunction := "depositTransaction"
  expectedCalls := ["AddressAliasHelper.applyL1ToL2Alias"]
  guardVariableName := "_isCreation"
  conversionLiteral := 0
  conversionTypeName := "address"
  binaryOperator := BinaryType.EQUAL
  binaryLocalName := "_to"
  callSignature := "require(bool,string)"

/-- The source's entry point: the verifier at its hard-coded rule. -/
def test_deposit_transaction_integrity (slither : Slither) : Except String Unit :=
  verify slither depositRule

/-! Concrete models used by the end-to-end statements.  Temporary id 0 is the
conversion's result, id 1 the binary comparison's result, id 2 stands in for
the require call's message argument. -/

/-- An IF node of the shape the deposit rule looks for, with the binary
comparison's two operands left free so operand placement can be studied.  The
conversion's result is temporary 0 and the comparison's result temporary 1. -/
def mkBinaryOperandsNode (bleft bright : Variable) : Node :=
  Node.mk NodeType.IF
    [Node.mk NodeType.EXPRESSION []
       [IROp.typeConversion (Variable.constant 0) "address" (Variable.temporary 0),
        IROp.binary BinaryType.EQUAL bleft bright (Variable.temporary 1),
        IROp.solidityCall "require(bool,string)"
          [Variable.temporary 1, Variable.temporary 2] none],
     Node.mk NodeType.ENDIF [] []]
    [IROp.condition (Variable.localVar "_isCreation")]

/-- The same IF node shape with the require call's first argument left free;
the binary comparison's result is temporary 1 and its operands are the ones
the deposit rule expects. -/
def mkCallArgNode (arg0 : Variable) : Node :=
  Node.mk NodeType.IF
    [Node.mk NodeType.EXPRESSION []
       [IROp.typeConversion (Variable.constant 0) "address" (Variable.temporary 0),
        IROp.binary BinaryType.EQUAL (Variable.localVar "_to") (Variable.temporary 0)
          (Variable.temporary 1),
        IROp.solidityCall "require(bool,string)" [arg0, Variable.temporary 2] none],
     Node.mk NodeType.ENDIF [] []]
    [IROp.condition (Variable.localVar "_isCreation")]

/-- The fully conforming guard node of the end-to-end pass scenario. -/
def passNode : Node :=
  mkBinaryOperandsNode (Variable.localVar "_to") (Variable.temporary 0)

/-- The conforming `depositTransaction` function: exactly one outgoing call to
`AddressAliasHelper.applyL1ToL2Alias` and a CFG containing the conforming
guard node. -/
def depositFunction : Func where
  name := "depositTransaction"
  high_level_calls := [("AddressAliasHelper", "applyL1ToL2Alias")]
  nodes := [passNode]

/-- The end-to-end pass model: one `OptimismPortal` contract holding the
conforming `depositTransaction` function. -/
def passModel : Slither where
  contracts := [{ name := "OptimismPortal", functions := [depositFunction] }]

/-- A node of a kind the matcher never considers, used as CFG filler. -/
def otherNode : Node := Node.mk NodeType.OTHER [] []

/-- The EXPRESSION child of the strict-length scenario: the three conforming
operations with one extra, unrelated operation spliced in between, so the
conforming three still appear in order as a subsequence of the four. -/
def fourOpChild : Node :=
  Node.mk NodeType.EXPRESSION []
    [IROp.typeConversion (Variable.constant 0) "address" (Variable.temporary 0),
     IROp.binary BinaryType.EQUAL (Variable.localVar "_to") (Variable.temporary 0)
       (Variable.temporary 1),
     IROp.condition (Variable.localVar "_unrelated"),
     IROp.solidityCall "require(bool,string)"
       [Variable.temporary 1, Variable.temporary 2] none]

/-- The strict-length scenario's guard node: identical to `passNode` except
that its EXPRESSION child carries the four-operation list of `fourOpChild`. -/
def fourOpNode : Node :=
  Node.mk NodeType.IF [fourOpChild, Node.mk NodeType.ENDIF [] []]
    [IROp.condition (Variable.localVar "_isCreation")]

/-- The `depositTransaction` function with one extra outgoing call
`Other.helper`, while its CFG still contains the conforming guard node. -/
def extraCallFunction : Func where
  name := "depositTransaction"
  high_level_calls := [("AddressAliasHelper", "applyL1ToL2Alias"), ("Other", "helper")]
  nodes := [passNode]

/-- The end-to-end failure model of the call-set scenario: identical to
`passModel` except for the extra outgoing call. -/
def extraCallModel : Slither where
  contracts := [{ name := "OptimismPortal", functions := [extraCallFunction] }]

/-- The order used to state that `strLe` sorting behaves like a sort: it is
transitive. -/
instance : IsTrans String strLe where
  trans _a _b _c hab hbc := le_trans (α := List Char) hab hbc

/-- The order `strLe` is total. -/
instance : IsTotal String strLe where
  total a b := le_total a.data b.data

/-- The order `strLe` is antisymmetric, because a string is its character
list. -/
instance : IsAntisymm String strLe where
  antisymm a b h1 h2 := by
    cases a; cases b; exact congrArg String.mk (le_antisymm h1 h2)

/-- Helper for the access-safety statement: on every single node, the
instrumented check completes and agrees with the plain check. -/
theorem matchNodeSafe_eq (rule : Rule) (node : Node) :
    matchNodeSafe rule node = some (matchNode rule node) := by
  obtain ⟨t, sons, irs⟩ := node
  cases t
  case EXPRESSION => rfl
  case ENDIF => rfl
  case OTHER => rfl
  case IF =>
  rcases irs with _ | ⟨cir, restIrs⟩
  · rfl
  rcases cir with v | _ | _ | _
  case typeConversion => rfl
  case binary => rfl
  case solidityCall => rfl
  case condition =>
  rcases v with s | k | i
  case constant => rfl
  case temporary => rfl
  case localVar =>
  by_cases hs : s = rule.guardVariableName
  case neg =>
    simp [matchNodeSafe, matchNode, isGuardCandidate, Node.type, Node.sons, Node.irs, hs]
  case pos =>
  rcases sons with _ | ⟨a, _ | ⟨b, _ | ⟨c2, srest⟩⟩⟩
  · simp [matchNodeSafe, matchNode, isGuardCandidate, Node.type, Node.sons, Node.irs, hs]
  · simp [matchNodeSafe, matchNode, isGuardCandidate, Node.type, Node.sons, Node.irs, hs]
  case cons.cons.cons =>
    simp [matchNodeSafe, matchNode, isGuardCandidate, Node.type, Node.sons, Node.irs, hs]
  case cons.cons.nil =>
  obtain ⟨tb, bsons, birs⟩ := b
  cases tb
  case IF =>
    simp [matchNodeSafe, matchNode, isGuardCandidate, Node.type, Node.sons, Node.irs, hs]
  case EXPRESSION =>
    simp [matchNodeSafe, matchNode, isGuardCandidate, Node.type, Node.sons, Node.irs, hs]
  case OTHER =>
    simp [matchNodeSafe, matchNode, isGuardCandidate, Node.type, Node.sons, Node.irs, hs]
  case ENDIF =>
  obtain ⟨ta, asons, airs⟩ := a
  cases ta
  case IF =>
    simp [matchNodeSafe, matchNode, isGuardCandidate, Node.type, Node.sons, Node.irs, hs]
  case ENDIF =>
    simp [matchNodeSafe, matchNode, isGuardCandidate, Node.type, Node.sons, Node.irs, hs]
  case OTHER =>
    simp [matchNodeSafe, matchNode, isGuardCandidate, Node.type, Node.sons, Node.irs, hs]
  case EXPRESSION =>
  rcases airs with _ | ⟨i0, _ | ⟨i1, _ | ⟨i2, _ | ⟨i3, arest⟩⟩⟩⟩
  · simp [matchNodeSafe, matchNode, isGuardCandidate, matchOpSequence,
      Node.type, Node.sons, Node.irs, hs]
  · simp [matchNodeSafe, matchNode, isGuardCandidate, matchOpSequence,
      Node.type, Node.sons, Node.irs, hs]
  · simp [matchNodeSafe, matchNode, isGuardCandidate, matchOpSequence,
      Node.type, Node.sons, Node.irs, hs]
  case cons.cons.cons.cons =>
    simp [matchNodeSafe, matchNode, isGuardCandidate, matchOpSequence,
      Node.type, Node.sons, Node.irs, hs]
  case cons.cons.cons.nil =>
  rcases i0 with _ | ⟨tv, tn, lv⟩ | _ | _
  case condition =>
    simp [matchNodeSafe, matchNode, isGuardCandidate, matchOpSequence,
      Node.type, Node.sons, Node.irs, hs]
  case binary =>
    simp [matchNodeSafe, matchNode, isGuardCandidate, matchOpSequence,
      Node.type, Node.sons, Node.irs, hs]
  case solidityCall =>
    simp [matchNodeSafe, matchNode, isGuardCandidate, matchOpSequence,
      Node.type, Node.sons, Node.irs, hs]
  case typeConversion =>
  rcases tv with s2 | k2 | i2
  case localVar =>
    simp [matchNodeSafe, matchNode, isGuardCandidate, matchOpSequence,
      Node.type, Node.sons, Node.irs, hs]
  case temporary =>
    simp [matchNodeSafe, matchNode, isGuardCandidate, matchOpSequence,
      Node.type, Node.sons, Node.irs, hs]
  case constant =>
  rcases i1 with _ | _ | ⟨bt, bl, br, blv⟩ | _
  case condition =>
    simp [matchNodeSafe, matchNode, isGuardCandidate, matchOpSequence,
      Node.type, Node.sons, Node.irs, hs]
  case typeConversion =>
    simp [matchNodeSafe, matchNode, isGuardCandidate, matchOpSequence,
      Node.type, Node.sons, Node.irs, hs]
  case solidityCall =>
    simp [matchNodeSafe, matchNode, isGuardCandidate, matchOpSequence,
      Node.type, Node.sons, Node.irs, hs]
  case binary =>
  rcases bl with s3 | k3 | i3b
  case constant =>
    simp [matchNodeSafe, matchNode, isGuardCandidate, matchOpSequence,
      Node.type, Node.sons, Node.irs, hs]
  case temporary =>
    simp [matchNodeSafe, matchNode, isGuardCandidate, matchOpSequence,
      Node.type, Node.sons, Node.irs, hs]
  case localVar =>
  rcases i2 with _ | _ | _ | ⟨fn, args, lvo⟩
  case condition =>
    simp [matchNodeSafe, matchNode, isGuardCandidate, matchOpSequence,
      Node.type, Node.sons, Node.irs, hs]
  case typeConversion =>
    simp [matchNodeSafe, matchNode, isGuardCandidate, matchOpSequence,
      Node.type, Node.sons, Node.irs, hs]
  case binary =>
    simp [matchNodeSafe, matchNode, isGuardCandidate, matchOpSequence,
      Node.type, Node.sons, Node.irs, hs]
  case solidityCall =>
  rcases args with _ | ⟨a0, argrest⟩
  · simp [matchNodeSafe, matchNode, isGuardCandidate, matchOpSequence,
      Node.type, Node.sons, Node.irs, hs]
  · simp only [matchNodeSafe, matchNode, isGuardCandidate, matchOpSequence,
      Node.type, Node.sons, Node.irs, hs]
    simp
    split_ifs <;> simp_all
    tauto

/-- Helper: the instrumented fold over the node list agrees with the plain
pass for every starting accumulator. -/
theorem patternMatchesSafe_foldl (rule : Rule) (nodes : List Node) (b : Bool) :
    nodes.foldl
      (fun acc node =>
        match acc, matchNodeSafe rule node with
        | some found, some matched => some (found || matched)
        | _, _ => none)
      (some b) = some (b || nodes.any (fun node => matchNode rule node)) := by
  induction nodes generalizing b with
  | nil => simp
  | cons n ns ih =>
    simp only [List.foldl_cons, List.any_cons]
    rw [matchNodeSafe_eq]
    rw [ih]
    simp [Bool.or_assoc]

/-- Helper: the operation-sequence check rejects outright any IR list whose
length is not exactly three. -/
theorem matchOpSequence_length (rule : Rule) (l : List IROp) (h : l.length ≠ 3) :
    matchOpSequence rule l = false := by
  rcases l with _ | ⟨a, _ | ⟨b, _ | ⟨c, _ | ⟨d, t⟩⟩⟩⟩ <;> simp_all [matchOpSequence]

/-- C1: for the model holding contract `OptimismPortal` with a
`depositTransaction` function whose only outgoing call is
`AddressAliasHelper.applyL1ToL2Alias` and whose CFG contains the conforming
CONDITIONAL node (condition on local `_isCreation`, children
[EXPRESSION, BLOCK-END], EXPRESSION child carrying exactly the conversion,
comparison and require-call operations with the required identities), the
verifier reports a pass and raises no error. -/
theorem end_to_end_pass :
    test_deposit_transaction_integrity passModel = Except.ok () := rfl

/-- C2: the call-set comparison succeeds exactly when the actual and the
expected call lists are equal as multisets, so any permutation of the
expected list passes while missing, extra or duplicated entries fail. -/
theorem callSetCheck_iff_multiset_eq (actual expected : List String) :
    callSetCheck actual expected = true ↔
      (actual : Multiset String) = (expected : Multiset String) := by
  constructor
  · intro h
    have heq : List.insertionSort strLe actual = List.insertionSort strLe expected := by
      simpa [callSetCheck] using h
    have pa := List.perm_insertionSort strLe actual
    have pe := List.perm_insertionSort strLe expected
    exact Multiset.coe_eq_coe.mpr (pa.symm.trans (heq ▸ pe))
  · intro h
    have hp := Multiset.coe_eq_coe.mp h
    have pa := List.perm_insertionSort strLe actual
    have pe := List.perm_insertionSort strLe expected
    have heq : List.insertionSort strLe actual = List.insertionSort strLe expected :=
      List.eq_of_perm_of_sorted ((pa.trans hp).trans pe.symm)
        (List.sorted_insertionSort strLe actual)
        (List.sorted_insertionSort strLe expected)
    simp [callSetCheck, heq]

/-- C3: a CONDITIONAL node whose designated EXPRESSION child carries an IR
list of any length other than three is rejected by the per-node check, no
matter what the operations are — in particular a four-operation list that
still contains the three expected operations in order. -/
theorem wrong_length_rejected (rule : Rule) (node : Node) (e : Node)
    (rest : List Node) (hsons : node.sons = e :: rest) (hlen : e.irs.length ≠ 3) :
    matchNode rule node = false := by
  obtain ⟨t, sons, irs⟩ := node
  simp only [Node.sons] at hsons
  subst hsons
  rcases rest with _ | ⟨b, _ | ⟨c, rrest⟩⟩
  · simp [matchNode, Node.sons]
  · simp [matchNode, Node.sons, matchOpSequence_length rule e.irs hlen]
  · simp [matchNode, Node.sons]

/-- C3 witness: the concrete four-operation scenario.  The conforming three
operations appear in order as a subsequence of `fourOpChild`'s four
operations, yet the node is rejected. -/
theorem wrong_length_rejected_witness :
    fourOpNode.sons = fourOpChild :: [Node.mk NodeType.ENDIF [] []] ∧
    fourOpChild.irs.length ≠ 3 ∧
    passNode.sons.head?.map Node.irs = some
      [IROp.typeConversion (Variable.constant 0) "address" (Variable.temporary 0),
       IROp.binary BinaryType.EQUAL (Variable.localVar "_to") (Variable.temporary 0)
         (Variable.temporary 1),
       IROp.solidityCall "require(bool,string)"
         [Variable.temporary 1, Variable.temporary 2] none] ∧
    [IROp.typeConversion (Variable.constant 0) "address" (Variable.temporary 0),
     IROp.binary BinaryType.EQUAL (Variable.localVar "_to") (Variable.temporary 0)
       (Variable.temporary 1),
     IROp.solidityCall "require(bool,string)"
       [Variable.temporary 1, Variable.temporary 2] none].Sublist fourOpChild.irs ∧
    matchNode depositRule fourOpNode = false :=
  ⟨rfl, by decide, rfl, by decide,
   wrong_length_rejected depositRule fourOpNode fourOpChild _ rfl (by decide)⟩

/-- C10: the pattern-matching pass performs no unguarded list access: running
it with every list subscript checked (`matchNodeSafe` / `patternMatchesSafe`,
where an out-of-range access would surface as `none`) always terminates with
`some` and agrees with the plain pass, for every rule and every node list. -/
theorem pattern_pass_access_safe (rule : Rule) (nodes : List Node) :
    patternMatchesSafe rule nodes = some (patternMatches rule nodes) := by
  unfold patternMatchesSafe patternMatches
  simpa using patternMatchesSafe_foldl rule nodes false

/-- C4: cross-referenced operand matching is identity matching.  In the
conforming node family whose conversion result is temporary 0 and whose
comparison result is temporary 1: the comparison's right operand matches
exactly when it is temporary 0 itself (any other temporary id — a
separately produced instance — fails, as does a literal 0 of equal value),
and the require call's first argument matches exactly when it is the
comparison's own result temporary 1. -/
theorem identity_cross_reference (i : Nat) (a : Variable) :
    (matchNode depositRule
        (mkBinaryOperandsNode (Variable.localVar "_to") (Variable.temporary i)) = true
      ↔ i = 0) ∧
    matchNode depositRule
        (mkBinaryOperandsNode (Variable.localVar "_to") (Variable.constant 0)) = false ∧
    (matchNode depositRule (mkCallArgNode a) = true ↔ a = Variable.temporary 1) := by
  refine ⟨?_, by decide, ?_⟩
  · simp [matchNode, mkBinaryOperandsNode, isGuardCandidate, matchOpSequence,
      Node.type, Node.sons, Node.irs, depositRule]
  · rcases a with s | k | j <;>
      simp [matchNode, mkCallArgNode, isGuardCandidate, matchOpSequence,
        Node.type, Node.sons, Node.irs, depositRule]

/-- C5: the verifier's sub-checks run in the fixed order contract lookup,
function lookup, call-set comparison, structural pattern matching, and a
failing call-set comparison aborts verification with the call-set violation
for every model — in particular for models whose CFG would satisfy the
structural pattern, so that check is never reached. -/
theorem call_set_violation_aborts (slither : Slither) (rule : Rule)
    (portal : Contract) (rest : List Contract) (f : Func)
    (hc : get_contract_from_name slither rule.targetContract = portal :: rest)
    (hf : portal.functions.find? (fun g => g.name == rule.targetFunction) = some f)
    (hcs : callSetCheck (f.high_level_calls.map (fun cf => cf.1 ++ "." ++ cf.2))
      rule.expectedCalls = false) :
    verify slither rule = Except.error (rule.targetContract ++ "." ++
      rule.targetFunction ++ " has had a new high level call added.") := by
  simp [verify, hc, hf, hcs]

/-- C5 witness: the extra-call model, whose CFG does contain the conforming
guard node, still fails with the call-set violation. -/
theorem call_set_violation_aborts_witness :
    get_contract_from_name extraCallModel depositRule.targetContract =
      [{ name := "OptimismPortal", functions := [extraCallFunction] }] ∧
    ({ name := "OptimismPortal", functions := [extraCallFunction] } : Contract).functions.find?
      (fun g => g.name == depositRule.targetFunction) = some extraCallFunction ∧
    callSetCheck (extraCallFunction.high_level_calls.map (fun cf => cf.1 ++ "." ++ cf.2))
      depositRule.expectedCalls = false ∧
    patternMatches depositRule extraCallFunction.nodes = true ∧
    verify extraCallModel depositRule =
      Except.error "OptimismPortal.depositTransaction has had a new high level call added." :=
  ⟨rfl, rfl, by decide, by decide,
   call_set_violation_aborts extraCallModel depositRule _ _ extraCallFunction rfl rfl (by decide)⟩

/-- C6 counterexample: operand placement in the Binary check is not
symmetric.  The conforming node (left operand the named local `_to`, right
operand the conversion's result temporary) matches, but the node obtained
from it by swapping the two Binary operands is rejected, so swapping does
change the match outcome. -/
theorem binary_operand_swap_counterexample :
    matchNode depositRule
      (mkBinaryOperandsNode (Variable.localVar "_to") (Variable.temporary 0)) = true ∧
    matchNode depositRule
      (mkBinaryOperandsNode (Variable.temporary 0) (Variable.localVar "_to")) = false := by
  decide

/-- C6 amended: the Binary operation predicate fixes the sides: it requires
specifically the right operand to be identical to the cross-referenced
conversion result and the left operand to be the named local, so within the
conforming node family a node matches exactly when its Binary operands are in
that orientation. -/
theorem binary_operand_sides_fixed (bl br : Variable) :
    matchNode depositRule (mkBinaryOperandsNode bl br) = true ↔
      (bl = Variable.localVar "_to" ∧ br = Variable.temporary 0) := by
  rcases bl with s | k | i <;> rcases br with s2 | k2 | i2 <;>
    simp [matchNode, mkBinaryOperandsNode, isGuardCandidate, matchOpSequence,
      Node.type, Node.sons, Node.irs, depositRule]
  all_goals tauto

/-- C7: the verification outcome does not depend on the order in which the
function's CFG nodes are enumerated: models that differ only by a
permutation of the target function's node list verify identically. -/
theorem verify_node_order_independent (rule : Rule) (pre post : List Contract)
    (cname : String) (fpre fpost : List Func) (f : Func) (nodes2 : List Node)
    (h : f.nodes.Perm nodes2) :
    verify ⟨pre ++ ⟨cname, fpre ++ f :: fpost⟩ :: post⟩ rule =
      verify ⟨pre ++ ⟨cname, fpre ++ { f with nodes := nodes2 } :: fpost⟩ :: post⟩ rule := by
  have hp : (∀ x ∈ f.nodes, matchNode rule x = false) ↔
      (∀ x ∈ nodes2, matchNode rule x = false) := by
    constructor <;> intro ha x hx
    · exact ha x (h.mem_iff.mpr hx)
    · exact ha x (h.mem_iff.mp hx)
  unfold verify get_contract_from_name
  simp only [List.filter_append]
  rcases hpre : pre.filter (fun c => c.name == rule.targetContract) with _ | ⟨g, t⟩
  · simp only [hpre, List.nil_append]
    by_cases hcn : (cname == rule.targetContract) = true
    · simp only [List.filter_cons, hcn, if_pos]
      simp only [List.find?_append]
      rcases hfp : fpre.find? (fun g => g.name == rule.targetFunction) with _ | ⟨g2⟩
      · simp only [hfp, Option.none_or]
        by_cases hfn : (f.name == rule.targetFunction) = true
        · simp [List.find?_cons, hfn, patternMatches, hp]
        · simp [List.find?_cons, hfn]
      · simp [hfp]
    · simp [List.filter_cons, hcn]
  · simp only [hpre, List.cons_append]

/-- C7 witness: swapping the two nodes of a concrete two-node CFG leaves the
verification outcome unchanged. -/
theorem verify_node_order_independent_witness :
    ([otherNode, passNode].Perm [passNode, otherNode]) ∧
    verify ⟨[⟨"OptimismPortal",
        [{ name := "depositTransaction",
           high_level_calls := [("AddressAliasHelper", "applyL1ToL2Alias")],
           nodes := [otherNode, passNode] }]⟩]⟩ depositRule =
      verify ⟨[⟨"OptimismPortal",
        [{ name := "depositTransaction",
           high_level_calls := [("AddressAliasHelper", "applyL1ToL2Alias")],
           nodes := [passNode, otherNode] }]⟩]⟩ depositRule :=
  ⟨List.Perm.swap passNode otherNode [],
   verify_node_order_independent depositRule [] [] "OptimismPortal" [] []
     { name := "depositTransaction",
       high_level_calls := [("AddressAliasHelper", "applyL1ToL2Alias")],
       nodes := [otherNode, passNode] }
     [passNode, otherNode] (List.Perm.swap passNode otherNode [])⟩

/-- C8: on a function without any CONDITIONAL node the pattern-matching pass
is a normal negative result: it returns false for every rule, raising no
error. -/
theorem no_conditional_nodes_false (rule : Rule) (nodes : List Node)
    (h : ∀ n ∈ nodes, n.type ≠ NodeType.IF) :
    patternMatches rule nodes = false := by
  simp only [patternMatches, List.any_eq_false]
  intro n hn
  have ht : (n.type == NodeType.IF) = false := by simpa using h n hn
  simp [matchNode, isGuardCandidate, ht]

/-- C8 witness: a CFG of one EXPRESSION node and one OTHER node has no
CONDITIONAL node, and the pass returns false on it. -/
theorem no_conditional_nodes_false_witness :
    (∀ n ∈ [Node.mk NodeType.EXPRESSION [] [], otherNode], n.type ≠ NodeType.IF) ∧
    patternMatches depositRule [Node.mk NodeType.EXPRESSION [] [], otherNode] = false :=
  ⟨by decide,
   no_conditional_nodes_false depositRule [Node.mk NodeType.EXPRESSION [] [], otherNode]
     (by decide)⟩

/-- C9 counterexample: in the call-set-mismatch case the failure message does
not include the actual versus expected call sets.  With the extra outgoing
call `Other.helper` present, the raised message is a fixed sentence that does
not even contain the extra entry `Other.helper` as a substring. -/
theorem call_set_message_omits_sets :
    test_deposit_transaction_integrity extraCallModel =
      Except.error "OptimismPortal.depositTransaction has had a new high level call added." ∧
    containsSub "Other.helper"
      "OptimismPortal.depositTransaction has had a new high level call added." = false ∧
    containsSub "AddressAliasHelper.applyL1ToL2Alias"
      "OptimismPortal.depositTransaction has had a new high level call added." = false :=
  ⟨rfl, by decide, by decide⟩

/-- C9 amended: every verification failure message is one of four fixed
sentences, each naming its failing sub-check (missing contract, missing
function, new high-level call, missing structural pattern); the call-set
sentence depends only on the rule, never on the actual or expected call
sets. -/
theorem failure_message_names_subcheck (slither : Slither) (rule : Rule)
    (msg : String) (h : verify slither rule = Except.error msg) :
    msg = "Could not find " ++ rule.targetContract ++ " contract" ∨
    msg = "Could not find " ++ rule.targetContract ++ "." ++ rule.targetFunction ++
      " function" ∨
    msg = rule.targetContract ++ "." ++ rule.targetFunction ++
      " has had a new high level call added." ∨
    msg = "Could not find the " ++ rule.guardVariableName ++
      " if-statement + require check in " ++ rule.targetContract ++ "." ++
      rule.targetFunction := by
  unfold verify at h
  simp only [] at h
  repeat' split at h
  all_goals first
    | (simp only [Except.error.injEq] at h; tauto)
    | simp at h

/-- C9 amended witness: the call-set failure of the extra-call model carries
one of the four fixed messages. -/
theorem failure_message_names_subcheck_witness :
    verify extraCallModel depositRule =
      Except.error "OptimismPortal.depositTransaction has had a new high level call added." ∧
    ("OptimismPortal.depositTransaction has had a new high level call added." =
        "Could not find " ++ depositRule.targetContract ++ " contract" ∨
      "OptimismPortal.depositTransaction has had a new high level call added." =
        "Could not find " ++ depositRule.targetContract ++ "." ++
          depositRule.targetFunction ++ " function" ∨
      "OptimismPortal.depositTransaction has had a new high level call added." =
        depositRule.targetContract ++ "." ++ depositRule.targetFunction ++
          " has had a new high level call added." ∨
      "OptimismPortal.depositTransaction has had a new high level call added." =
        "Could not find the " ++ depositRule.guardVariableName ++
          " if-statement + require check in " ++ depositRule.targetContract ++ "." ++
          depositRule.targetFunction) :=
  ⟨rfl, failure_message_names_subcheck extraCallModel depositRule _ rfl⟩

end SlitherAPI
